import Mathlib

/-!
Verification of the request-validation / error-translation pipeline of the
`lovely-service` repository: a shallow embedding of
`service/middleware/middleware.py`, `service/middleware/utils.py` and the
envelope serializer of `service/data_classes/base.py`, together with theorems
about the embedded definitions.
-/

namespace LovelyService

/-! ## JSON documents

A JSON document, as produced by `orjson.dumps` / consumed by `orjson.loads`.
Numbers are modelled as integers (no claim touches fractional numbers). -/

inductive Json where
  | null
  | bool (b : Bool)
  | num (n : Int)
  | str (s : String)
  | arr (items : List Json)
  | obj (fields : List (String × Json))
deriving Repr

/-! ## Python datetime values -/

/-- A Python `datetime.datetime`: calendar fields, microseconds and an optional
fixed-offset timezone (`none` = naive, `some 0` = `timezone.utc`, offset is in
minutes). -/
structure PyDateTime where
  year : Nat
  month : Nat
  day : Nat
  hour : Nat
  minute : Nat
  second : Nat
  microsecond : Nat
  tzOffsetMinutes : Option Int
deriving Repr, DecidableEq

/-- `t.replace(tzinfo=timezone.utc)`: relabels the timezone, keeping the wall
clock fields. -/
def PyDateTime.setUtc (t : PyDateTime) : PyDateTime :=
  { t with tzOffsetMinutes := some 0 }

/-- A Python value of the kinds that appear in a pydantic `.dict()` dump of
this repository: JSON scalars, datetimes, `uuid.UUID` values (carried as
their canonical string, e.g. `Project.id`), lists and string-keyed dicts. -/
inductive PyVal where
  | null
  | bool (b : Bool)
  | int (n : Int)
  | str (s : String)
  | dt (t : PyDateTime)
  | uuid (s : String)
  | list (items : List PyVal)
  | dict (fields : List (String × PyVal))
deriving Repr

/-! ## The orjson codec (external library model)

`orjson.dumps(v, option=OPT_OMIT_MICROSECONDS | OPT_UTC_Z)` renders datetimes
as RFC 3339 strings: microseconds are omitted under `OPT_OMIT_MICROSECONDS`,
a UTC offset is rendered as `Z` under `OPT_UTC_Z`, a non-UTC offset as
`+HH:MM`/`-HH:MM`, and a naive datetime gets no offset designator at all.
We model the codec at the level of the JSON document the text denotes. -/

/-- Zero-pad a numeral to two digits. -/
def pad2 (n : Nat) : String :=
  if n < 10 then "0" ++ toString n else toString n

/-- Zero-pad a numeral to four digits. -/
def pad4 (n : Nat) : String :=
  if n < 10 then "000" ++ toString n
  else if n < 100 then "00" ++ toString n
  else if n < 1000 then "0" ++ toString n
  else toString n

/-- Zero-pad a numeral to six digits. -/
def pad6 (n : Nat) : String :=
  if n < 10 then "00000" ++ toString n
  else if n < 100 then "0000" ++ toString n
  else if n < 1000 then "000" ++ toString n
  else if n < 10000 then "00" ++ toString n
  else if n < 100000 then "0" ++ toString n
  else toString n

/-- Render the offset designator of a datetime.  Under `OPT_UTC_Z` a zero
offset renders as `Z`; a naive datetime renders no designator. -/
def renderOffset (utcZ : Bool) : Option Int → String
  | none => ""
  | some off =>
    if off = 0 then
      (if utcZ then "Z" else "+00:00")
    else if 0 ≤ off then
      "+" ++ pad2 (off.toNat / 60) ++ ":" ++ pad2 (off.toNat % 60)
    else
      "-" ++ pad2 ((-off).toNat / 60) ++ ":" ++ pad2 ((-off).toNat % 60)

/-- RFC 3339 rendering of a datetime as done by orjson with the given
options. -/
def PyDateTime.render (omitMicro utcZ : Bool) (t : PyDateTime) : String :=
  pad4 t.year ++ "-" ++ pad2 t.month ++ "-" ++ pad2 t.day ++ "T" ++
  pad2 t.hour ++ ":" ++ pad2 t.minute ++ ":" ++ pad2 t.second ++
  (if omitMicro || t.microsecond == 0 then "" else "." ++ pad6 t.microsecond) ++
  renderOffset utcZ t.tzOffsetMinutes

mutual

/-- The JSON document text produced by `orjson.dumps` with the given options,
modelled as the document it denotes. -/
def orjsonEncode (omitMicro utcZ : Bool) : PyVal → Json
  | .null => .null
  | .bool b => .bool b
  | .int n => .num n
  | .str s => .str s
  | .dt t => .str (t.render omitMicro utcZ)
  | .uuid s => .str s
  | .list items => .arr (orjsonEncodeList omitMicro utcZ items)
  | .dict fields => .obj (orjsonEncodeFields omitMicro utcZ fields)

def orjsonEncodeList (omitMicro utcZ : Bool) : List PyVal → List Json
  | [] => []
  | v :: vs => orjsonEncode omitMicro utcZ v :: orjsonEncodeList omitMicro utcZ vs

def orjsonEncodeFields (omitMicro utcZ : Bool) :
    List (String × PyVal) → List (String × Json)
  | [] => []
  | (k, v) :: fs => (k, orjsonEncode omitMicro utcZ v) :: orjsonEncodeFields omitMicro utcZ fs

end

mutual

/-- `orjson.loads` of a JSON document: objects become dicts, arrays lists,
strings stay strings (a datetime can never come back out of `loads`). -/
def orjsonDecode : Json → PyVal
  | .null => .null
  | .bool b => .bool b
  | .num n => .int n
  | .str s => .str s
  | .arr items => .list (orjsonDecodeList items)
  | .obj fields => .dict (orjsonDecodeFields fields)

def orjsonDecodeList : List Json → List PyVal
  | [] => []
  | v :: vs => orjsonDecode v :: orjsonDecodeList vs

def orjsonDecodeFields : List (String × Json) → List (String × PyVal)
  | [] => []
  | (k, v) :: fs => (k, orjsonDecode v) :: orjsonDecodeFields fs

end

/-! ## `orjson_dumps` from `service/data_classes/base.py`

```
def orjson_dumps(v, *, default=None):
    for key, value in v.items():
        if isinstance(value, list):
            for vv in value:
                if isinstance(vv, dict):
                    for kkey, vvalue in vv.items():
                        if isinstance(vvalue, datetime):
                            vv[kkey] = vvalue.replace(tzinfo=timezone.utc)
        if isinstance(value, datetime):
            v[key] = value.replace(tzinfo=timezone.utc)
    return orjson.dumps(v, default=default,
        option=orjson.OPT_OMIT_MICROSECONDS | orjson.OPT_UTC_Z).decode()
```
-/

/-- The innermost loop body: inside a dict that sits in a top-level list, a
datetime value is relabelled to UTC. -/
def fixInnerField : String × PyVal → String × PyVal
  | (k, .dt t) => (k, .dt t.setUtc)
  | p => p

/-- An element of a top-level list: only dict elements are touched. -/
def fixListElem : PyVal → PyVal
  | .dict fields => .dict (fields.map fixInnerField)
  | v => v

/-- One top-level entry of the dumped dict: a list has its dict elements
fixed, a datetime is relabelled to UTC; everything else (in particular a
nested dict) is left alone. -/
def fixTopField : String × PyVal → String × PyVal
  | (k, .list items) => (k, .list (items.map fixListElem))
  | (k, .dt t) => (k, .dt t.setUtc)
  | p => p

/-- `orjson_dumps` of `base.py`, applied to the `.dict()` dump of a pydantic
model (a string-keyed dict): the timezone-fixing loop followed by
`orjson.dumps` with `OPT_OMIT_MICROSECONDS | OPT_UTC_Z`. -/
def orjson_dumps (v : List (String × PyVal)) : Json :=
  orjsonEncode true true (.dict (v.map fixTopField))

/-! Plain JSON values: the payloads on which JSON serialization can possibly
be lossless.  A datetime is rendered as a string and a `uuid.UUID` is
rendered natively as its canonical string, and `orjson.loads` returns plain
strings where either stood, so only values free of both can round-trip. -/

mutual

def jsonPure : PyVal → Bool
  | .null => true
  | .bool _ => true
  | .int _ => true
  | .str _ => true
  | .dt _ => false
  | .uuid _ => false
  | .list items => jsonPureList items
  | .dict fields => jsonPureFields fields

def jsonPureList : List PyVal → Bool
  | [] => true
  | v :: vs => jsonPure v && jsonPureList vs

def jsonPureFields : List (String × PyVal) → Bool
  | [] => true
  | (_, v) :: fs => jsonPure v && jsonPureFields fs

end

/-- Look a key up in a JSON object (first occurrence), used to examine
serialized envelopes. -/
def Json.getField : Json → String → Option Json
  | .obj fields, k => (fields.find? (fun p => p.1 == k)).map (fun p => p.2)
  | _, _ => none

/-- Look a key up in a Python dict. -/
def PyVal.getField : PyVal → String → Option PyVal
  | .dict fields, k => (fields.find? (fun p => p.1 == k)).map (fun p => p.2)
  | _, _ => none

/-! ## Exceptions

The middleware distinguishes exceptions by their class; each `except` clause
of the source matches one of the kinds below. -/

inductive ExcKind where
  | validationErr
  | typeErr
  | badRequestErr
  | httpUnauthorized
  | userWarning
  | otherExc
deriving Repr, DecidableEq

/-- A raised Python exception: its catch-relevant class kind, its class name
(`type(e).__name__`), its `str(e)` text, and — meaningful only for pydantic
`ValidationError` — the text of `e.json(indent=0)`. -/
structure Exc where
  kind : ExcKind
  name : String
  msg : String
  jsonRepr : String
deriving Repr

/-- Modelled from the spec: `service/middleware/exceptions.py` (imported by
the middleware but not part of the sources) defines `BadRequestError`, the
failure kind the spec maps to status 400; as for any plain `Exception`
subclass, `str(e)` is the message it was constructed with. -/
def badRequest (msg : String) : Exc :=
  ⟨.badRequestErr, "BadRequestError", msg, msg⟩

/-- A `TypeError`, e.g. from `issubclass` on a non-class or from `**` applied
to a non-mapping. -/
def typeError (msg : String) : Exc :=
  ⟨.typeErr, "TypeError", msg, msg⟩

/-- An `AttributeError`, e.g. from `annotation.__args__` when the annotation
has no `__args__`. -/
def attributeError (msg : String) : Exc :=
  ⟨.otherExc, "AttributeError", msg, msg⟩

/-- `str` of the `TypeError` raised by `issubclass(annotation, BaseModel)`
when the annotation is not a class. -/
def issubclassTypeErrMsg : String :=
  "issubclass arg 1 must be a class"

/-- `str` of the `TypeError` raised by `cls(**request_json)` when the parsed
body is not a mapping. -/
def kwNotMappingMsg : String :=
  "argument after ** must be a mapping"

/-- `str` of the `AttributeError` raised by `annotation.__args__` on a class
annotation. -/
def noArgsAttrMsg (clsName : String) : String :=
  "type object " ++ clsName ++ " has no attribute __args__"

/-! ## Handler input declarations -/

/-- A validated object constructed by a pydantic class: the class name and the
validated content. -/
abbrev PyObj := String × Json

/-- A pydantic `ValidationError`: its `str(e)` text and its `e.json(indent=0)`
text. -/
structure VErr where
  strRepr : String
  json0 : String
deriving Repr

/-- A pydantic `BaseModel` subclass used as (part of) a handler's `data`
annotation: calling it on keyword arguments either returns the validated
object or raises a `ValidationError`. -/
structure PShape where
  clsName : String
  ctor : List (String × Json) → Except VErr PyObj

/-- The handler's declared `data` annotation (`handler.__annotations__["data"]`):
a class (pydantic subclass or not), a `typing.Union` of classes, or a
non-class object (for which `issubclass` raises `TypeError` and which has no
`__args__` attribute, whose access raises an `AttributeError` with the given
text). -/
inductive DataAnn where
  | classAnn (isBaseModelSubclass : Bool) (c : PShape)
  | unionAnn (classes : List PShape)
  | nonClass (attrErrMsg : String)

/-- `cls(**request_json)`: keyword construction requires the parsed JSON to be
a mapping; on a mapping, a pydantic class either validates or raises a
`ValidationError`. -/
def callKw (c : PShape) : Json → Except Exc PyObj
  | .obj fields =>
    match c.ctor fields with
    | .ok o => .ok o
    | .error ve => .error ⟨.validationErr, "ValidationError", ve.strRepr, ve.json0⟩
  | _ => .error (typeError kwNotMappingMsg)

/-- The raw request body as seen through `await request.json()`: either the
parsed JSON document, or invalid JSON whose parse raises a decode error with
the given `str(e)` text. -/
inductive Body where
  | valid (json : Json)
  | invalid (errText : String)

/-- The request context (`request["data"]`) as mutated by the validation
phase: the currently attached object and how many times the `data` key was
assigned. -/
structure Ctx where
  data : Option PyObj
  writes : Nat
deriving Repr

/-! ## `MiddlewareMain.prepare_data` (`service/middleware/middleware.py`)

The union-matching loop (lines 146-151 of the source):

```
for single_class in classes:
    try:
        request["data"] = single_class(**request_json)
        matched_classes_number += 1
    except ValidationError as e:
        validation_error = str(e)
```

Only `ValidationError` is caught inside the loop; any other exception
propagates out of it immediately. -/

def unionLoop (j : Json) :
    List PShape → Ctx → Nat → String → Except Exc Unit × Ctx × Nat × String
  | [], ctx, matched, ve => (.ok (), ctx, matched, ve)
  | c :: rest, ctx, matched, ve =>
    match callKw c j with
    | .ok o => unionLoop j rest ⟨some o, ctx.writes + 1⟩ (matched + 1) ve
    | .error e =>
      if e.kind = .validationErr then unionLoop j rest ctx matched e.msg
      else (.error e, ctx, matched, ve)

/-- The `except TypeError` branch (lines 139-163): read `annotation.__args__`,
run the matching loop, then raise on zero or several matches. -/
def unionBranch (classes : List PShape) (j : Json) (ctx : Ctx) :
    Except Exc Unit × Ctx :=
  match unionLoop j classes ctx 0 "" with
  | (.error e, ctx2, _, _) => (.error e, ctx2)
  | (.ok _, ctx2, matched, ve) =>
    if matched = 0 then (.error (badRequest ve), ctx2)
    else if matched = 1 then (.ok (), ctx2)
    else (.error (badRequest "Request matches several of the classes in the union."), ctx2)

/-- The inner `try` (lines 130-163): `issubclass(annotation, BaseModel)`
dispatch with its `except TypeError` handler.  Note that the `TypeError`
raised by `annotation(**request_json)` on a non-mapping body is also caught
here, in which case `annotation.__args__` raises an `AttributeError`. -/
def innerTry (a : DataAnn) (j : Json) : Except Exc Unit × Ctx :=
  let attempt : Except Exc Unit × Ctx :=
    match a with
    | .classAnn true c =>
      match callKw c j with
      | .ok o => (.ok (), ⟨some o, 1⟩)
      | .error e => (.error e, ⟨none, 0⟩)
    | .classAnn false _ =>
      (.error (badRequest "Handler data annotation is not a subclass of pydantic.BaseModel."),
        ⟨none, 0⟩)
    | .unionAnn _ => (.error (typeError issubclassTypeErrMsg), ⟨none, 0⟩)
    | .nonClass _ => (.error (typeError issubclassTypeErrMsg), ⟨none, 0⟩)
  match attempt with
  | (.error e, ctx) =>
    if e.kind = .typeErr then
      match a with
      | .unionAnn classes => unionBranch classes j ctx
      | .classAnn _ c => (.error (attributeError (noArgsAttrMsg c.clsName)), ctx)
      | .nonClass m => (.error (attributeError m), ctx)
    else (.error e, ctx)
  | okResult => okResult

/-- The outer `try` of the validation phase (lines 126-169): body parsing and
the two outer `except` clauses, which convert every failure into a
`BadRequestError`.  A `ValidationError` is reformatted via
`e.json(indent=0).replace("\n", "").replace('"', "'")`; any other exception
is wrapped as `BadRequestError(str(e))` — the decode error of invalid JSON
included. -/
def validatePhase (a : DataAnn) (body : Body) : Except Exc Unit × Ctx :=
  match body with
  | .invalid errText => (.error (badRequest errText), ⟨none, 0⟩)
  | .valid j =>
    match innerTry a j with
    | (.ok _, ctx) => (.ok (), ctx)
    | (.error e, ctx) =>
      if e.kind = .validationErr then
        (.error (badRequest ((e.jsonRepr.replace "\n" "").replace "\"" "'")), ctx)
      else (.error (badRequest e.msg), ctx)

/-! ## Handlers and responses -/

/-- What the handler body does, as a function of the attached
`request["data"]`: return a pydantic model (whose `.dict()` dump is the given
field list), return some other (native) response, or raise. -/
inductive HandlerOutcome where
  | model (fields : List (String × PyVal))
  | native (tag : Nat)
  | raises (e : Exc)

/-- A route handler: its `data` annotation when `"data" in
handler.__annotations__`, and its body. -/
structure Handler where
  ann : Option DataAnn
  run : Option PyObj → HandlerOutcome

/-- A response as returned through the middleware chain: either
`web.json_response(text=...)` built from serialized JSON text, or a response
object passed through unchanged (identified by an opaque tag). -/
inductive Resp where
  | jsonText (body : Json)
  | native (tag : Nat)
deriving Repr

/-- Lines 171-179: call the handler; a pydantic (`BaseModel`) return value is
serialized with its `.json()` method (the `orjson_dumps` serializer of
`BaseClass`) and wrapped in `web.json_response`, anything else is returned
unchanged. -/
def handlerCall (h : Handler) (d : Option PyObj) : Except Exc Resp :=
  match h.run d with
  | .model fields => .ok (.jsonText (orjson_dumps fields))
  | .native t => .ok (.native t)
  | .raises e => .error e

/-- `MiddlewareMain.prepare_data`: skip validation when the handler declares
no `data` annotation, otherwise run the validation phase and only call the
handler when it did not raise.  The second component is the final request
context. -/
def prepare_data (h : Handler) (body : Body) : Except Exc Resp × Ctx :=
  match h.ann with
  | none => (handlerCall h none, ⟨none, 0⟩)
  | some a =>
    match validatePhase a body with
    | (.ok _, ctx) => (handlerCall h ctx.data, ctx)
    | (.error e, ctx) => (.error e, ctx)

/-! ## `MiddlewareMain.server_error_handler` -/

/-- The outcome at the outermost boundary: a normal response passed through,
or a raised `web.HTTP*` carrying a status code and a serialized failure
envelope as body (aiohttp turns such a raise into exactly that HTTP
response). -/
inductive HttpOut where
  | success (r : Resp)
  | failure (status : Nat) (body : Json)
deriving Repr

/-- The status mapped to each exception kind by the `except` chain of
`server_error_handler` (lines 53-106): `web.HTTPUnauthorized` → 401,
`BadRequestError` → 400, `UserWarning` → 200, any other `Exception` → 500. -/
def statusOf : ExcKind → Nat
  | .httpUnauthorized => 401
  | .badRequestErr => 400
  | .userWarning => 200
  | _ => 500

/-- `ResponseFailure(result=ErrorResult(error_type=type(e).__name__,
error_message=str(e))).json()` — the failure envelope body built in every
`except` clause of `server_error_handler`, serialized by the `BaseClass`
serializer. -/
def failureEnvelope (errType errMsg : String) : Json :=
  orjson_dumps
    [("success", .bool false),
     ("result", .dict [("error_type", .str errType), ("error_message", .str errMsg)])]

/-- `MiddlewareMain.server_error_handler`, applied to the outcome of the rest
of the chain: a normal response is returned as-is; every exception is mapped
to a status code and a failure envelope. -/
def server_error_handler (inner : Except Exc Resp) : HttpOut :=
  match inner with
  | .ok r => .success r
  | .error e => .failure (statusOf e.kind) (failureEnvelope e.name e.msg)

/-- The full middleware chain as registered in `run_server.py`:
`server_error_handler` is appended first and therefore wraps `prepare_data`,
which wraps the handler. -/
def pipeline (h : Handler) (body : Body) : HttpOut :=
  server_error_handler (prepare_data h body).1

/-! ## `log_request` (`service/middleware/utils.py`)

`dict(request.headers)` and `dict(request.cookies)` are modelled as
association lists with distinct keys; `headers.pop("Authorization", None)`
removes exactly the entry with that key, which on the list representation is
a filter. -/

/-- The data of one inbound request that `log_request` reads. -/
structure ReqInfo where
  req_id : String
  url : String
  method : String
  body : Json
  headers : List (String × String)
  cookies : List (String × String)

/-- The `ELKRequestLog` record (`service/middleware/data_classes.py`) built by
`log_request` and forwarded to the sink. -/
structure ELKRequestLog where
  type : String
  request_uuid : String
  url : String
  method : String
  body : Json
  headers : List (String × String)
  cookies : List (String × String)

/-- `log_request`: builds the `ELKRequestLog` event, with the `Authorization`
header removed from the logged headers and everything else forwarded
unchanged. -/
def log_request (r : ReqInfo) : ELKRequestLog :=
  { type := "Request"
    request_uuid := r.req_id
    url := r.url
    method := r.method
    body := r.body
    headers := r.headers.filter (fun p => !(p.1 == "Authorization"))
    cookies := r.cookies }

/-! ## Characterization helpers for the union-matching loop -/

/-- How many alternatives of a union validate the given keyword fields. -/
def countOk (fs : List (String × Json)) : List PShape → Nat
  | [] => 0
  | c :: rest => (match c.ctor fs with | .ok _ => 1 | .error _ => 0) + countOk fs rest

/-- The value held by `request["data"]` after the loop: the last successful
construction, or the initial value when none succeeds. -/
def lastDataFrom (fs : List (String × Json)) (init : Option PyObj) :
    List PShape → Option PyObj
  | [] => init
  | c :: rest =>
    lastDataFrom fs (match c.ctor fs with | .ok o => some o | .error _ => init) rest

/-- The `validation_error` variable after the loop: the `str` of the last
`ValidationError`, or the initial value when every alternative succeeds. -/
def lastErrFrom (fs : List (String × Json)) (init : String) : List PShape → String
  | [] => init
  | c :: rest =>
    lastErrFrom fs (match c.ctor fs with | .ok _ => init | .error ve => ve.strRepr) rest

/-! ## Concrete fixtures used to evaluate the theorems on closed inputs -/

/-- Does a keyword-field list contain the given key? -/
def hasKey (fs : List (String × Json)) (k : String) : Bool :=
  (fs.find? (fun p => p.1 == k)).isSome

/-- A pydantic-like shape with one required field `a`. -/
def shapeA : PShape :=
  ⟨"ShapeA", fun fs =>
    if hasKey fs "a" then .ok ("ShapeA", .obj fs)
    else .error ⟨"A validation error", "A validation error json"⟩⟩

/-- A pydantic-like shape with one required field `b`. -/
def shapeB : PShape :=
  ⟨"ShapeB", fun fs =>
    if hasKey fs "b" then .ok ("ShapeB", .obj fs)
    else .error ⟨"B validation error", "B validation error json"⟩⟩

/-- A shape that validates every keyword mapping. -/
def alwaysA : PShape := ⟨"AlwaysA", fun fs => .ok ("AlwaysA", .obj fs)⟩

/-- A second shape that validates every keyword mapping. -/
def alwaysB : PShape := ⟨"AlwaysB", fun fs => .ok ("AlwaysB", .obj fs)⟩

/-- A handler declaring `data : Union[ShapeA, ShapeB]`. -/
def uHandler : Handler := ⟨some (.unionAnn [shapeA, shapeB]), fun _ => .native 7⟩

/-- A handler declaring `data : ShapeA`. -/
def sHandler : Handler := ⟨some (.classAnn true shapeA), fun _ => .native 5⟩

/-- A handler with no `data` annotation, returning a native response. -/
def nHandler : Handler := ⟨none, fun _ => .native 3⟩

/-- A handler with no `data` annotation whose `data` key is a non-class
object. -/
def badAnnHandler : Handler := ⟨some (.nonClass "nonclass attribute error"), fun _ => .native 1⟩

/-- A handler with no annotation returning a pydantic success envelope. -/
def mHandler : Handler :=
  ⟨none, fun _ => .model [("success", .bool true), ("result", .null)]⟩

/-- A naive datetime with sub-second precision. -/
def microTime : PyDateTime := ⟨2021, 1, 2, 3, 4, 5, 123456, none⟩

/-- A success envelope `.dict()` dump whose payload is a datetime. -/
def dtEnvelope : List (String × PyVal) :=
  [("success", .bool true), ("result", .dt microTime)]

/-- The `.dict()` dump of a failure envelope (datetime-free). -/
def failEnvDict : List (String × PyVal) :=
  [("success", .bool false),
   ("result", .dict [("error_type", .str "BadRequestError"),
                     ("error_message", .str "Bad Request Error.")])]

/-- The `.dict()` dump of a `ResponseProject` envelope (the `POST /create` and
`POST /update` response shape): the `Project` payload is a dict nested
directly under `result`, with a naive `created` datetime as delivered by the
database driver. -/
def projectEnvelope : List (String × PyVal) :=
  [("success", .bool true),
   ("result", .dict
     [("id", .str "0a2b"), ("name", .str "Alpha"),
      ("created", .dt microTime), ("updated", .null)])]

/-- A request carrying an `Authorization` header. -/
def reqWithAuth : ReqInfo :=
  ⟨"id-1", "http://svc/api/v1/create", "POST", .null,
    [("Authorization", "Bearer secret"), ("Host", "svc")], [("c", "1")]⟩

/-- The same request without the `Authorization` header. -/
def reqNoAuth : ReqInfo :=
  ⟨"id-1", "http://svc/api/v1/create", "POST", .null,
    [("Host", "svc")], [("c", "1")]⟩

/-! ## Helper lemmas -/

mutual

theorem decode_encode (om uz : Bool) :
    ∀ v : PyVal, jsonPure v = true → orjsonDecode (orjsonEncode om uz v) = v
  | .null, _ => rfl
  | .bool _, _ => rfl
  | .int _, _ => rfl
  | .str _, _ => rfl
  | .dt _, h => Bool.noConfusion h
  | .uuid _, h => Bool.noConfusion h
  | .list items, h =>
    congrArg PyVal.list (decode_encode_list om uz items h)
  | .dict fields, h =>
    congrArg PyVal.dict (decode_encode_fields om uz fields h)

theorem decode_encode_list (om uz : Bool) :
    ∀ l : List PyVal, jsonPureList l = true → orjsonDecodeList (orjsonEncodeList om uz l) = l
  | [], _ => rfl
  | v :: vs, h => by
    rw [orjsonEncodeList, orjsonDecodeList]
    rw [jsonPureList, Bool.and_eq_true] at h
    obtain ⟨h1, h2⟩ := h
    rw [decode_encode om uz v h1, decode_encode_list om uz vs h2]

theorem decode_encode_fields (om uz : Bool) :
    ∀ fs : List (String × PyVal), jsonPureFields fs = true →
      orjsonDecodeFields (orjsonEncodeFields om uz fs) = fs
  | [], _ => rfl
  | (k, v) :: fs, h => by
    rw [orjsonEncodeFields, orjsonDecodeFields]
    rw [jsonPureFields, Bool.and_eq_true] at h
    obtain ⟨h1, h2⟩ := h
    rw [decode_encode om uz v h1, decode_encode_fields om uz fs h2]

end

theorem fixInnerField_jsonPure :
    ∀ p : String × PyVal, jsonPure p.2 = true → fixInnerField p = p
  | (_, .null), _ => rfl
  | (_, .bool _), _ => rfl
  | (_, .int _), _ => rfl
  | (_, .str _), _ => rfl
  | (_, .dt _), h => Bool.noConfusion h
  | (_, .uuid _), h => Bool.noConfusion h
  | (_, .list _), _ => rfl
  | (_, .dict _), _ => rfl

theorem map_fixInnerField_jsonPure :
    ∀ fs : List (String × PyVal), jsonPureFields fs = true → fs.map fixInnerField = fs
  | [], _ => rfl
  | (k, v) :: fs, h => by
    rw [jsonPureFields, Bool.and_eq_true] at h
    obtain ⟨h1, h2⟩ := h
    rw [List.map_cons, fixInnerField_jsonPure (k, v) h1, map_fixInnerField_jsonPure fs h2]

theorem fixListElem_jsonPure :
    ∀ v : PyVal, jsonPure v = true → fixListElem v = v
  | .null, _ => rfl
  | .bool _, _ => rfl
  | .int _, _ => rfl
  | .str _, _ => rfl
  | .dt _, h => Bool.noConfusion h
  | .uuid _, h => Bool.noConfusion h
  | .list _, _ => rfl
  | .dict fields, h => congrArg PyVal.dict (map_fixInnerField_jsonPure fields h)

theorem map_fixListElem_jsonPure :
    ∀ l : List PyVal, jsonPureList l = true → l.map fixListElem = l
  | [], _ => rfl
  | v :: vs, h => by
    rw [jsonPureList, Bool.and_eq_true] at h
    obtain ⟨h1, h2⟩ := h
    rw [List.map_cons, fixListElem_jsonPure v h1, map_fixListElem_jsonPure vs h2]

theorem fixTopField_jsonPure :
    ∀ p : String × PyVal, jsonPure p.2 = true → fixTopField p = p
  | (_, .null), _ => rfl
  | (_, .bool _), _ => rfl
  | (_, .int _), _ => rfl
  | (_, .str _), _ => rfl
  | (_, .dt _), h => Bool.noConfusion h
  | (_, .uuid _), h => Bool.noConfusion h
  | (_, .list items), h => by
    rw [fixTopField, map_fixListElem_jsonPure items h]
  | (_, .dict _), _ => rfl

theorem map_fixTopField_jsonPure :
    ∀ fs : List (String × PyVal), jsonPureFields fs = true → fs.map fixTopField = fs
  | [], _ => rfl
  | (k, v) :: fs, h => by
    rw [jsonPureFields, Bool.and_eq_true] at h
    obtain ⟨h1, h2⟩ := h
    rw [List.map_cons, fixTopField_jsonPure (k, v) h1, map_fixTopField_jsonPure fs h2]

theorem unionLoop_spec (fs : List (String × Json)) (classes : List PShape) :
    ∀ (ctx : Ctx) (m : Nat) (ve : String),
    unionLoop (.obj fs) classes ctx m ve =
      (.ok (), ⟨lastDataFrom fs ctx.data classes, ctx.writes + countOk fs classes⟩,
        m + countOk fs classes, lastErrFrom fs ve classes) := by
  induction classes with
  | nil => intro ctx m ve; rfl
  | cons c rest ih =>
    intro ctx m ve
    cases hc : c.ctor fs with
    | ok o =>
      simp [unionLoop, callKw, hc, ih, lastDataFrom, countOk, lastErrFrom, Nat.add_assoc]
    | error ve2 =>
      simp [unionLoop, callKw, hc, ih, lastDataFrom, countOk, lastErrFrom]

theorem lastDataFrom_of_countOk_zero (fs : List (String × Json)) :
    ∀ classes : List PShape, countOk fs classes = 0 →
      ∀ init, lastDataFrom fs init classes = init := by
  intro classes
  induction classes with
  | nil => intro _ _; rfl
  | cons c rest ih =>
    intro h init
    cases hc : c.ctor fs with
    | ok o => simp [countOk, hc] at h
    | error e =>
      simp only [countOk, hc] at h
      rw [lastDataFrom, hc]
      exact ih (by simpa using h) init

theorem countOk_one_data (fs : List (String × Json)) :
    ∀ classes : List PShape, countOk fs classes = 1 →
    ∃ o : PyObj, (∃ c ∈ classes, c.ctor fs = .ok o) ∧
      ∀ init, lastDataFrom fs init classes = some o := by
  intro classes
  induction classes with
  | nil => intro h; simp [countOk] at h
  | cons c rest ih =>
    intro h
    cases hc : c.ctor fs with
    | ok o =>
      have hrest : countOk fs rest = 0 := by simpa [countOk, hc] using h
      refine ⟨o, ⟨c, List.mem_cons_self c rest, hc⟩, fun init => ?_⟩
      rw [lastDataFrom, hc, lastDataFrom_of_countOk_zero fs rest hrest]
    | error e =>
      have hrest : countOk fs rest = 1 := by simpa [countOk, hc] using h
      obtain ⟨o, ⟨c2, hc2, hok⟩, hlast⟩ := ih hrest
      exact ⟨o, ⟨c2, List.mem_cons_of_mem c hc2, hok⟩,
        fun init => by rw [lastDataFrom, hc, hlast]⟩

theorem innerTry_union (classes : List PShape) (j : Json) :
    innerTry (.unionAnn classes) j = unionBranch classes j ⟨none, 0⟩ := rfl

theorem unionBranch_ok (classes : List PShape) (j : Json) (ctx0 ctx : Ctx)
    (h : unionBranch classes j ctx0 = (.ok (), ctx)) :
    ∃ fs, j = .obj fs ∧ countOk fs classes = 1 ∧
      ctx = ⟨lastDataFrom fs ctx0.data classes, ctx0.writes + 1⟩ := by
  cases j with
  | obj fs =>
    refine ⟨fs, rfl, ?_⟩
    rw [unionBranch, unionLoop_spec fs classes ctx0 0 ""] at h
    by_cases h0 : countOk fs classes = 0
    · simp [h0] at h
    · by_cases h1 : countOk fs classes = 1
      · rw [h1] at h
        simp at h
        refine ⟨h1, ?_⟩
        cases ctx
        simp_all
      · simp [h0, h1] at h
  | null =>
    cases classes with
    | nil => simp [unionBranch, unionLoop] at h
    | cons c rest => simp [unionBranch, unionLoop, callKw, typeError] at h
  | bool b =>
    cases classes with
    | nil => simp [unionBranch, unionLoop] at h
    | cons c rest => simp [unionBranch, unionLoop, callKw, typeError] at h
  | num n =>
    cases classes with
    | nil => simp [unionBranch, unionLoop] at h
    | cons c rest => simp [unionBranch, unionLoop, callKw, typeError] at h
  | str s =>
    cases classes with
    | nil => simp [unionBranch, unionLoop] at h
    | cons c rest => simp [unionBranch, unionLoop, callKw, typeError] at h
  | arr items =>
    cases classes with
    | nil => simp [unionBranch, unionLoop] at h
    | cons c rest => simp [unionBranch, unionLoop, callKw, typeError] at h

theorem innerTry_ok (a : DataAnn) (j : Json) (ctx : Ctx)
    (h : innerTry a j = (.ok (), ctx)) :
    ctx.writes = 1 ∧ ctx.data.isSome = true := by
  cases a with
  | classAnn isBM c =>
    cases isBM with
    | true =>
      cases hc : callKw c j with
      | ok o =>
        simp [innerTry, hc] at h
        simp [← h]
      | error e =>
        by_cases hk : e.kind = ExcKind.typeErr
        · simp [innerTry, hc, hk] at h
        · simp [innerTry, hc, hk] at h
    | false => simp [innerTry, badRequest] at h
  | unionAnn classes =>
    rw [innerTry_union] at h
    obtain ⟨fs, -, h1, h2⟩ := unionBranch_ok classes j ⟨none, 0⟩ ctx h
    obtain ⟨o, -, hlast⟩ := countOk_one_data fs classes h1
    rw [h2]
    simp [hlast none]
  | nonClass m => simp [innerTry, typeError, attributeError] at h

theorem validatePhase_ok_writes (a : DataAnn) (b : Body)
    (hok : (validatePhase a b).1 = .ok ()) :
    (validatePhase a b).2.writes = 1 ∧ ((validatePhase a b).2.data).isSome = true := by
  cases b with
  | invalid t => simp [validatePhase, badRequest] at hok
  | valid j =>
    rcases hin : innerTry a j with ⟨res, ctx⟩
    cases res with
    | ok u =>
      cases u
      have := innerTry_ok a j ctx hin
      simp [validatePhase, hin, this]
    | error e =>
      by_cases hk : e.kind = ExcKind.validationErr
      · simp [validatePhase, hin, hk] at hok
      · simp [validatePhase, hin, hk] at hok

theorem validatePhase_error_shape (a : DataAnn) (b : Body) :
    (∃ ctx, validatePhase a b = (.ok (), ctx)) ∨
    (∃ m ctx, validatePhase a b = (.error (badRequest m), ctx)) := by
  cases b with
  | invalid t => exact .inr ⟨t, ⟨none, 0⟩, rfl⟩
  | valid j =>
    rcases hin : innerTry a j with ⟨res, ctx⟩
    cases res with
    | ok u =>
      cases u
      exact .inl ⟨ctx, by simp [validatePhase, hin]⟩
    | error e =>
      by_cases hk : e.kind = ExcKind.validationErr
      · exact .inr ⟨(e.jsonRepr.replace "\n" "").replace "\"" "'", ctx,
          by simp [validatePhase, hin, hk]⟩
      · exact .inr ⟨e.msg, ctx, by simp [validatePhase, hin, hk]⟩

/-! ## Claim theorems -/

/-- C1.  For a handler whose `data` annotation is a union of pydantic shapes
and a JSON-object body (the only bodies usable as keyword arguments), the
pipeline attempts construction against every alternative and counts
successes: zero matches fail as a 400 `BadRequestError` carrying the last
validation error in declaration order, exactly one match invokes the handler
with the constructed object attached to the request context, and several
matches fail as a 400 `BadRequestError` with the ambiguity message. -/
theorem prepare_data_union_disambiguation
    (h : Handler) (classes : List PShape) (fs : List (String × Json))
    (hann : h.ann = some (.unionAnn classes)) :
    (countOk fs classes = 0 →
      pipeline h (.valid (.obj fs)) =
        .failure 400 (failureEnvelope "BadRequestError" (lastErrFrom fs "" classes)))
    ∧ (countOk fs classes = 1 →
      ∃ o : PyObj, (∃ c ∈ classes, c.ctor fs = .ok o) ∧
        prepare_data h (.valid (.obj fs)) = (handlerCall h (some o), ⟨some o, 1⟩))
    ∧ (2 ≤ countOk fs classes →
      pipeline h (.valid (.obj fs)) =
        .failure 400 (failureEnvelope "BadRequestError"
          "Request matches several of the classes in the union.")) := by
  refine ⟨fun h0 => ?_, fun h1 => ?_, fun h2 => ?_⟩
  · simp [pipeline, prepare_data, hann, validatePhase, innerTry_union, unionBranch,
      unionLoop_spec, h0, badRequest, server_error_handler, statusOf]
  · obtain ⟨o, hmem, hlast⟩ := countOk_one_data fs classes h1
    refine ⟨o, hmem, ?_⟩
    have hv : validatePhase (.unionAnn classes) (.valid (.obj fs)) = (.ok (), ⟨some o, 1⟩) := by
      simp [validatePhase, innerTry_union, unionBranch, unionLoop_spec, h1, hlast none]
    simp [prepare_data, hann, hv]
  · have h0 : ¬ countOk fs classes = 0 := by omega
    have h1 : ¬ countOk fs classes = 1 := by omega
    simp [pipeline, prepare_data, hann, validatePhase, innerTry_union, unionBranch,
      unionLoop_spec, h0, h1, badRequest, server_error_handler, statusOf]

/-- Witness for C1: for `data : Union[ShapeA, ShapeB]`, a body matching only
`ShapeB` reaches the handler with the constructed object attached; a body
matching neither fails 400 with the last validation error (`ShapeB`, the
last alternative); a body matching both fails 400 with the ambiguity
message. -/
theorem prepare_data_union_disambiguation_witness :
    (∃ o : PyObj, (∃ c ∈ [shapeA, shapeB], c.ctor [("b", Json.num 1)] = .ok o) ∧
      prepare_data uHandler (.valid (.obj [("b", Json.num 1)])) =
        (handlerCall uHandler (some o), ⟨some o, 1⟩))
    ∧ pipeline uHandler (.valid (.obj [("c", Json.num 1)])) =
        .failure 400 (failureEnvelope "BadRequestError" "B validation error")
    ∧ pipeline uHandler (.valid (.obj [("a", Json.num 1), ("b", Json.num 1)])) =
        .failure 400 (failureEnvelope "BadRequestError"
          "Request matches several of the classes in the union.") :=
  ⟨(prepare_data_union_disambiguation uHandler [shapeA, shapeB] [("b", Json.num 1)] rfl).2.1
      rfl,
   (prepare_data_union_disambiguation uHandler [shapeA, shapeB] [("c", Json.num 1)] rfl).1
      rfl,
   (prepare_data_union_disambiguation uHandler [shapeA, shapeB]
      [("a", Json.num 1), ("b", Json.num 1)] rfl).2.2 (by decide)⟩

/-- C2.  The outer error boundary maps every raised failure to exactly one
HTTP response: 401 for an authentication failure, 400 for a
`BadRequestError`, 200 for a business warning (`UserWarning`), 500 for
anything else, and in every case the body is the serialized failure envelope
with `error_type` the exception class name and `error_message` its `str`
text; a normal response passes through untouched, so nothing propagates past
the boundary. -/
theorem server_error_handler_translation (k : ExcKind) (nm msg jr : String) :
    server_error_handler (.error ⟨k, nm, msg, jr⟩) =
      .failure (statusOf k) (failureEnvelope nm msg)
    ∧ statusOf .httpUnauthorized = 401
    ∧ statusOf .badRequestErr = 400
    ∧ statusOf .userWarning = 200
    ∧ statusOf .validationErr = 500
    ∧ statusOf .typeErr = 500
    ∧ statusOf .otherExc = 500
    ∧ failureEnvelope nm msg =
        .obj [("success", .bool false),
          ("result", .obj [("error_type", .str nm), ("error_message", .str msg)])]
    ∧ ∀ r : Resp, server_error_handler (.ok r) = .success r :=
  ⟨rfl, rfl, rfl, rfl, rfl, rfl, rfl, rfl, fun _ => rfl⟩

/-- C3.  For a handler that declares a `data` annotation and a body that is
not valid JSON, the pipeline answers 400 with a failure envelope whose
`error_type` is `BadRequestError` (the translation of the parse failure) and
whose `error_message` is the parse error text. -/
theorem pipeline_invalid_json_bad_request (h : Handler) (a : DataAnn) (errText : String)
    (hann : h.ann = some a) :
    pipeline h (.invalid errText) =
      .failure 400 (failureEnvelope "BadRequestError" errText) := by
  simp [pipeline, prepare_data, hann, validatePhase, server_error_handler, statusOf,
    badRequest]

/-- Witness for C3 on a concrete handler and parse error text. -/
theorem pipeline_invalid_json_bad_request_witness :
    pipeline sHandler (.invalid "Expecting value: line 1 column 1 (char 0)") =
      .failure 400
        (failureEnvelope "BadRequestError" "Expecting value: line 1 column 1 (char 0)") :=
  pipeline_invalid_json_bad_request sHandler (.classAnn true shapeA) _ rfl

/-- C4.  A handler with no `data` annotation is invoked without the body
being read or parsed (the result does not depend on the body at all), with
nothing attached to the request context; such a request cannot fail
validation — any failure comes from the handler itself. -/
theorem prepare_data_skips_validation (h : Handler) (b1 b2 : Body) (hann : h.ann = none) :
    prepare_data h b1 = prepare_data h b2
    ∧ prepare_data h b1 = (handlerCall h none, ⟨none, 0⟩)
    ∧ (∀ e, (prepare_data h b1).1 = .error e → h.run none = .raises e) := by
  refine ⟨by simp [prepare_data, hann], by simp [prepare_data, hann], ?_⟩
  intro e he
  have he2 : handlerCall h none = .error e := by
    simpa [prepare_data, hann] using he
  cases hr : h.run none with
  | model fields => rw [handlerCall, hr] at he2; simp at he2
  | native t => rw [handlerCall, hr] at he2; simp at he2
  | raises e2 => rw [handlerCall, hr] at he2; simp at he2; rw [he2]

/-- Witness for C4: a malformed body and a well-formed body give the same
result for an annotation-free handler. -/
theorem prepare_data_skips_validation_witness :
    prepare_data nHandler (.invalid "garbage") = prepare_data nHandler (.valid (.obj []))
    ∧ prepare_data nHandler (.invalid "garbage") = (handlerCall nHandler none, ⟨none, 0⟩) :=
  ⟨(prepare_data_skips_validation nHandler (.invalid "garbage") (.valid (.obj [])) rfl).1,
   (prepare_data_skips_validation nHandler (.invalid "garbage") (.valid (.obj [])) rfl).2.1⟩

/-- C5.  A handler return value that is a pydantic model is serialized with
the envelope serializer and wrapped as the outbound JSON body; any other
return value is passed through unchanged. -/
theorem handler_return_serialization (h : Handler) (d : Option PyObj) :
    (∀ fields, h.run d = .model fields →
      handlerCall h d = .ok (.jsonText (orjson_dumps fields)))
    ∧ (∀ t, h.run d = .native t → handlerCall h d = .ok (.native t))
    ∧ (∀ b, h.ann = none → pipeline h b = server_error_handler (handlerCall h none)) := by
  refine ⟨fun fields hr => ?_, fun t hr => ?_, fun b hann => ?_⟩
  · rw [handlerCall, hr]
  · rw [handlerCall, hr]
  · simp [pipeline, prepare_data, hann]

/-- Witness for C5: a handler returning a success envelope model has it
serialized to the canonical JSON document. -/
theorem handler_return_serialization_witness :
    handlerCall mHandler none =
      .ok (.jsonText (.obj [("success", .bool true), ("result", .null)]))
    ∧ handlerCall nHandler none = .ok (.native 3) :=
  ⟨(handler_return_serialization mHandler none).1
      [("success", .bool true), ("result", .null)] rfl,
   (handler_return_serialization nHandler none).2.1 3 rfl⟩

/-- Counterexample for C6: with a union annotation whose alternatives both
validate the body, `request["data"]` is assigned once per matching
alternative — twice here, within a single request's validation — refuting
"never assigned more than once". -/
theorem request_data_double_write :
    (validatePhase (.unionAnn [alwaysA, alwaysB]) (.valid (.obj []))).2.writes = 2
    ∧ ¬ (validatePhase (.unionAnn [alwaysA, alwaysB]) (.valid (.obj []))).2.writes ≤ 1 := by
  exact ⟨rfl, by decide⟩

/-- C6 (amended).  Whenever validation succeeds — i.e. on every request that
goes on to invoke the handler — the context's `data` key was assigned
exactly once and holds the one validated object, which is exactly what
`prepare_data` hands to the handler; only requests rejected with the
ambiguity error can see more than one assignment. -/
theorem validated_data_written_once (a : DataAnn) (b : Body)
    (hok : (validatePhase a b).1 = .ok ()) :
    (validatePhase a b).2.writes = 1 ∧ ((validatePhase a b).2.data).isSome = true
    ∧ ∀ h : Handler, h.ann = some a →
      prepare_data h b = (handlerCall h ((validatePhase a b).2.data), (validatePhase a b).2) := by
  obtain ⟨h1, h2⟩ := validatePhase_ok_writes a b hok
  refine ⟨h1, h2, fun h hann => ?_⟩
  rcases hv : validatePhase a b with ⟨res, ctx⟩
  rw [hv] at hok
  simp at hok
  subst hok
  simp [prepare_data, hann, hv]

/-- Witness for C6 (amended) at a single-shape annotation and a matching
body. -/
theorem validated_data_written_once_witness :
    (validatePhase (.classAnn true shapeA) (.valid (.obj [("a", Json.num 1)]))).2.writes = 1 :=
  (validated_data_written_once (.classAnn true shapeA) (.valid (.obj [("a", Json.num 1)]))
    rfl).1

/-- C7.  Every exception raised during the validation phase — shape
validation errors, a non-pydantic or non-class annotation, a body unusable
as keyword arguments, invalid JSON — surfaces as a `BadRequestError`, so the
pipeline answers 400, never 500. -/
theorem validation_failure_maps_to_400 (a : DataAnn) (b : Body) (e : Exc)
    (hfail : (validatePhase a b).1 = .error e) :
    e.kind = .badRequestErr ∧ e.name = "BadRequestError" ∧
    ∀ h : Handler, h.ann = some a →
      pipeline h b = .failure 400 (failureEnvelope "BadRequestError" e.msg) := by
  rcases validatePhase_error_shape a b with ⟨ctx, hv⟩ | ⟨m, ctx, hv⟩
  · rw [hv] at hfail
    simp at hfail
  · rw [hv] at hfail
    simp at hfail
    subst hfail
    refine ⟨rfl, rfl, fun h hann => ?_⟩
    simp [pipeline, prepare_data, hann, hv, server_error_handler, statusOf, badRequest]

/-- Witness for C7: a handler whose `data` annotation is not a type at all
still yields a 400 `BadRequestError` (here carrying the text of the
`AttributeError` raised while handling it). -/
theorem validation_failure_maps_to_400_witness :
    pipeline badAnnHandler (.valid (.obj [])) =
      .failure 400 (failureEnvelope "BadRequestError" "nonclass attribute error") :=
  (validation_failure_maps_to_400 (.nonClass "nonclass attribute error") (.valid (.obj []))
    (badRequest "nonclass attribute error") rfl).2.2 badAnnHandler rfl

/-- C8.  `log_request` strips the `Authorization` header from the logged
headers and forwards every other header, the cookies and the remaining
fields unchanged; consequently two requests that differ only in the value or
presence of the `Authorization` header produce identical logged events. -/
theorem log_request_redacts_authorization :
    (∀ r : ReqInfo,
      (log_request r).headers = r.headers.filter (fun p => !(p.1 == "Authorization"))
      ∧ (log_request r).cookies = r.cookies
      ∧ (log_request r).url = r.url
      ∧ (log_request r).method = r.method
      ∧ (log_request r).body = r.body
      ∧ (log_request r).request_uuid = r.req_id)
    ∧ (∀ r1 r2 : ReqInfo,
      r1.req_id = r2.req_id → r1.url = r2.url → r1.method = r2.method →
      r1.body = r2.body → r1.cookies = r2.cookies →
      r1.headers.filter (fun p => !(p.1 == "Authorization")) =
        r2.headers.filter (fun p => !(p.1 == "Authorization")) →
      log_request r1 = log_request r2) := by
  refine ⟨fun r => ⟨rfl, rfl, rfl, rfl, rfl, rfl⟩, fun r1 r2 h1 h2 h3 h4 h5 h6 => ?_⟩
  simp [log_request, h1, h2, h3, h4, h5, h6]

/-- Witness for C8: a request with an `Authorization` header and the same
request without it log identically. -/
theorem log_request_redacts_authorization_witness :
    log_request reqWithAuth = log_request reqNoAuth :=
  log_request_redacts_authorization.2 reqWithAuth reqNoAuth rfl rfl rfl rfl rfl rfl

/-- Counterexample for C9: a success envelope whose payload is a datetime
does not round-trip — serialization renders the datetime as a string (and
discards its microseconds), so parsing the text back cannot return the
original payload. -/
theorem envelope_roundtrip_cex :
    orjsonDecode (orjson_dumps dtEnvelope) ≠ PyVal.dict dtEnvelope := by
  intro h
  have h2 : (PyVal.dict dtEnvelope).getField "result" = some (.dt microTime) := rfl
  have h3 : (orjsonDecode (orjson_dumps dtEnvelope)).getField "result"
      = some (.str "2021-01-02T03:04:05Z") := rfl
  rw [h] at h3
  rw [h2] at h3
  simp at h3

/-- C9 (amended).  Envelope serialization round-trips losslessly for every
envelope whose payload consists of plain JSON values — no datetime and no
`uuid.UUID` values: `orjson.loads` of the serialized text yields the
original `.dict()` payload.  (A datetime is rendered as a string with its
microseconds discarded, and a UUID is rendered natively as its canonical
string, so `loads` returns plain strings where either stood and neither
round-trips.) -/
theorem envelope_roundtrip_jsonpure (fields : List (String × PyVal))
    (hjp : jsonPureFields fields = true) :
    orjsonDecode (orjson_dumps fields) = .dict fields := by
  rw [orjson_dumps, map_fixTopField_jsonPure fields hjp]
  exact decode_encode true true (.dict fields) hjp

/-- Witness for C9 (amended) on a concrete failure envelope. -/
theorem envelope_roundtrip_jsonpure_witness :
    orjsonDecode (orjson_dumps failEnvDict) = .dict failEnvDict :=
  envelope_roundtrip_jsonpure failEnvDict rfl

/-- C10.  The serializer normalizes datetimes to UTC (hence `Z`, with
microseconds dropped) at the top level of the dumped dict and inside a
top-level list of dicts — but not inside a plain nested dict: the
`ResponseProject` envelope produced by `POST /create` / `POST /update`
serializes its naive `created` field without the `Z` designator. -/
theorem nested_project_datetime_not_utc :
    orjson_dumps projectEnvelope =
      .obj [("success", .bool true),
        ("result", .obj
          [("id", .str "0a2b"), ("name", .str "Alpha"),
           ("created", .str "2021-01-02T03:04:05"), ("updated", .null)])]
    ∧ orjson_dumps [("created", .dt microTime)] =
        .obj [("created", .str "2021-01-02T03:04:05Z")]
    ∧ orjson_dumps [("result", .list [.dict [("created", .dt microTime)]])] =
        .obj [("result", .arr [.obj [("created", .str "2021-01-02T03:04:05Z")]])] :=
  ⟨rfl, rfl, rfl⟩

end LovelyService
